import Mathlib

/-!
# Verification of the livesplit-renderer-glow frame-composition core

This development is a shallow embedding of the caching and rendering logic of
the `livesplit-renderer-glow` crate (files `types.rs`, `allocator.rs`,
`render.rs`, `shaders.rs`), together with proofs of the specified properties.

Modelling conventions:

* `f32` values are modelled as `ℚ`; the machine epsilon used by the code's
  tolerance comparisons (`f32::EPSILON`) is the exact rational `2 ^ (-23)`.
  The code's `f32::INFINITY` / `f32::NEG_INFINITY` sentinels used by
  `vertex_bounds` are modelled by a dedicated type `F32x` with the IEEE
  ordering on non-NaN values.
* `Arc<T>` is modelled as `Shared T`: a value together with an allocation
  identifier.  `Arc::clone` preserves the identifier; `Arc::new` receives a
  fresh identifier from an explicit allocation counter that is threaded
  through the functions that allocate.  Pointer equality of two `Arc`s is
  identifier equality.
* Interior mutability (`RwLock`) under the crate's single-rendering-thread
  model is state passing: each mutating operation returns the updated value.
* The external lyon stroke tessellator is an uninterpreted parameter
  `tess : ℕ → ℚ → Option (List Vtx × List ℕ)` mapping (outline identity,
  stroke width) to `none` (tessellation error) or the produced buffers,
  matching the `Result` + emptiness handling in `allocator.rs`.
* GL calls are recorded as explicit data (`DrawCall`, texture names drawn from
  a counter) rather than performed.
-/

/-- The tolerance `f32::EPSILON = 2⁻²³` used by every float comparison in the
crate (stroke-width match in `types.rs`, blur-amount match in `render.rs`). -/
def EPSILON : ℚ := 1 / 8388608

/-- A vertex position in local coordinate space (`Vertex` in `types.rs`,
a `[f32; 2]` pair). -/
abbrev Vtx : Type := ℚ × ℚ

/-- Select one coordinate of a vertex position, `v.position[axis]` with
`axis` 0 = X and 1 = Y (the only indices the code uses). -/
def Vtx.coord (v : Vtx) (axis : Fin 2) : ℚ :=
  if axis = 0 then v.1 else v.2

/-- Model of `Arc<T>`: the payload plus its allocation identifier.  Two
`Shared` values are the same allocation (pointer-equal) iff their `id`s are
equal; `Arc::clone` is the identity on this model. -/
structure Shared (α : Type) where
  id : ℕ
  data : α
deriving DecidableEq, Repr

/-- An f32 value as seen by `vertex_bounds` in `render.rs`: a finite value or
one of the two infinity sentinels.  NaN never arises on the code's inputs. -/
inductive F32x where
  | fin (q : ℚ)
  | posInf
  | negInf
deriving DecidableEq, Repr

/-- The IEEE `<` ordering on non-NaN f32 values. -/
def F32x.flt : F32x → F32x → Bool
  | .fin a, .fin b => decide (a < b)
  | .fin _, .posInf => true
  | .fin _, .negInf => false
  | .posInf, _ => false
  | .negInf, .negInf => false
  | .negInf, _ => true

/-- `f32::min` on non-NaN values: the smaller argument. -/
def F32x.fmin (a b : F32x) : F32x := if F32x.flt a b then a else b

/-- `f32::max` on non-NaN values: the larger argument. -/
def F32x.fmax (a b : F32x) : F32x := if F32x.flt b a then a else b

/-- One step of the accumulation loop in `vertex_bounds`:
`min = min.min(val); max = max.max(val);`. -/
def boundsStep (acc : F32x × F32x) (v : Vtx) (axis : Fin 2) : F32x × F32x :=
  (F32x.fmin acc.1 (F32x.fin (v.coord axis)), F32x.fmax acc.2 (F32x.fin (v.coord axis)))

/-- `vertex_bounds` from `render.rs`: the min/max of a single axis across all
path vertices, starting from the `INFINITY` / `NEG_INFINITY` sentinels, with
`[0.0, 0.0]` returned when `max < min` (empty input). -/
def vertex_bounds (vertices : List Vtx) (axis : Fin 2) : F32x × F32x :=
  let acc := vertices.foldl (fun acc v => boundsStep acc v axis) (F32x.posInf, F32x.negInf)
  if F32x.flt acc.2 acc.1 then (F32x.fin 0, F32x.fin 0) else acc

/-- Cached stroke tessellation data for a specific line width
(`StrokeCache` in `types.rs`). -/
structure StrokeCache where
  width : ℚ
  vertices : Shared (List Vtx)
  indices : Shared (List ℕ)
deriving DecidableEq, Repr

/-- A tessellated path (`GlPath` in `types.rs`): shared triangle buffers, the
shared retained lyon outline (represented by its allocation identifier and an
outline token that the tessellation oracle consumes), and the single-slot
stroke cache. -/
structure GlPath where
  vertices : Shared (List Vtx)
  indices : Shared (List ℕ)
  lyon_path : Shared ℕ
  stroke_cache : Option StrokeCache
deriving DecidableEq, Repr

/-- `GlPath::from_arcs`: build a path from pre-shared buffers; the stroke
cache starts empty. -/
def GlPath.from_arcs (vertices : Shared (List Vtx)) (indices : Shared (List ℕ))
    (lyon_path : Shared ℕ) : GlPath :=
  { vertices := vertices, indices := indices, lyon_path := lyon_path, stroke_cache := none }

/-- `GlPath::cached_stroke`: the cached tessellation, or `none` if the cache
is empty or was tessellated for a width differing by at least `EPSILON`.
The returned pair are `Arc::clone`s — the same allocations. -/
def GlPath.cached_stroke (p : GlPath) (width : ℚ) :
    Option (Shared (List Vtx) × Shared (List ℕ)) :=
  p.stroke_cache.bind fun c =>
    if |c.width - width| < EPSILON then some (c.vertices, c.indices) else none

/-- `GlPath::set_stroke_cache`: overwrite the single cache slot. -/
def GlPath.set_stroke_cache (p : GlPath) (width : ℚ) (vertices : Shared (List Vtx))
    (indices : Shared (List ℕ)) : GlPath :=
  { p with stroke_cache := some ⟨width, vertices, indices⟩ }

/-- `impl Clone for GlPath` in `types.rs`: the three `Arc`s are cloned (same
allocations), while the stroke cache restarts empty. -/
def GlPath.clone (p : GlPath) : GlPath :=
  { vertices := p.vertices, indices := p.indices, lyon_path := p.lyon_path,
    stroke_cache := none }

/-- `impl SharedOwnership for GlPath`: `share` is `clone`. -/
def GlPath.share (p : GlPath) : GlPath := p.clone

/-- The external lyon stroke tessellator, uninterpreted: given the retained
outline (by identity) and a stroke width, it produces buffers or fails.
`none` covers both a tessellation `Err` and the empty-geometry case is
checked separately, as in `allocator.rs`. -/
abbrev StrokeTess : Type := ℕ → ℚ → Option (List Vtx × List ℕ)

/-- Result of `tessellate_stroke`: the optional stroked path, the (possibly
cache-updated) input path, the advanced allocation counter, and whether the
external tessellator was invoked. -/
structure TessStrokeResult where
  result : Option GlPath
  path : GlPath
  nextId : ℕ
  invoked : Bool
deriving DecidableEq, Repr

/-- `tessellate_stroke` from `allocator.rs`: consult the path's stroke cache
first; on a miss invoke the tessellator, and if it yields nonempty geometry
store it as the new sole cache entry and return it, else return nothing. -/
def tessellate_stroke (tess : StrokeTess) (p : GlPath) (stroke_width : ℚ)
    (nextId : ℕ) : TessStrokeResult :=
  match p.cached_stroke stroke_width with
  | some (verts, idxs) =>
      ⟨some (GlPath.from_arcs verts idxs p.lyon_path), p, nextId, false⟩
  | none =>
      match tess p.lyon_path.data stroke_width with
      | some (vs, is) =>
          if vs.isEmpty then ⟨none, p, nextId, true⟩
          else
            let verts : Shared (List Vtx) := ⟨nextId, vs⟩
            let idxs : Shared (List ℕ) := ⟨nextId + 1, is⟩
            let p2 := p.set_stroke_cache stroke_width verts idxs
            ⟨some (GlPath.from_arcs verts idxs p.lyon_path), p2, nextId + 2, true⟩
      | none => ⟨none, p, nextId, true⟩

/-- Backing store of a decoded image (`GlImageData` in `types.rs`): the fixed
pixel buffer and dimensions, and the lazily populated GL texture handle. -/
structure GlImageData where
  pixels : List ℕ
  width : ℕ
  height : ℕ
  texture : Option ℕ
deriving DecidableEq, Repr

/-- Result of `ensure_texture`: the returned texture name, the (possibly
updated) image data, the advanced texture-name counter, and whether the
pixel-upload path (`tex_image_2d` on the pixel buffer) executed. -/
structure EnsureTexResult where
  texture : ℕ
  image : GlImageData
  nextTex : ℕ
  uploaded : Bool
deriving DecidableEq, Repr

/-- `GlowRenderer::ensure_texture` from `render.rs`: return the cached handle
if present; otherwise create a texture (a fresh GL name), upload the pixel
data, cache the handle, and return it. -/
def ensure_texture (d : GlImageData) (nextTex : ℕ) : EnsureTexResult :=
  match d.texture with
  | some t => ⟨t, d, nextTex, false⟩
  | none => ⟨nextTex, { d with texture := some nextTex }, nextTex + 1, true⟩

/-- Cached blurred background texture (`BlurCache` in `render.rs`): the source
image identity (`Arc` pointer address), the blur setting, and the uploaded
texture name. -/
structure BlurCache where
  source_ptr : ℕ
  blur_value : ℚ
  texture : ℕ
deriving DecidableEq, Repr

/-- The renderer state consulted by `get_or_create_blurred_texture`: the
single-slot blur cache and the GL texture-name counter. -/
structure BlurState where
  blur_cache : Option BlurCache
  nextTex : ℕ
deriving DecidableEq, Repr

/-- The blur-cache state of a freshly constructed renderer
(`blur_cache: None` in `GlowRenderer::new`). -/
def initial_blur_state : BlurState := ⟨none, 0⟩

/-- Result of `get_or_create_blurred_texture`: the returned texture, the
updated state, and whether the CPU blur + upload path executed. -/
structure BlurResult where
  texture : ℕ
  state : BlurState
  recomputed : Bool
deriving DecidableEq, Repr

/-- `GlowRenderer::get_or_create_blurred_texture` from `render.rs`: return the
cached texture when both the source identity and the blur amount match within
`EPSILON`; otherwise blur on the CPU and upload a fresh texture.  The method
takes `&self`, so — as its own comment concedes — the miss branch creates the
texture but cannot write `self.blur_cache`: the cache field is left exactly
as it was (and nothing else in the crate ever writes it). -/
def get_or_create_blurred_texture (st : BlurState) (source_ptr : ℕ)
    (blur_value : ℚ) : BlurResult :=
  match st.blur_cache with
  | some cache =>
      if cache.source_ptr = source_ptr ∧ |cache.blur_value - blur_value| < EPSILON then
        ⟨cache.texture, st, false⟩
      else
        ⟨st.nextTex, { st with nextTex := st.nextTex + 1 }, true⟩
  | none => ⟨st.nextTex, { st with nextTex := st.nextTex + 1 }, true⟩

/-- The per-frame bookkeeping of `GlowRenderer` relevant to bottom-layer
caching: the current FBO dimensions and the dirty flag. -/
structure FrameState where
  fbo_size : ℕ × ℕ
  bottom_layer_dirty : Bool
deriving DecidableEq, Repr

/-- The frame state of a freshly constructed renderer
(`fbo_size: [0, 0], bottom_layer_dirty: true` in `GlowRenderer::new`). -/
def initial_frame_state : FrameState := ⟨(0, 0), true⟩

/-- Per-frame inputs to `GlowRenderer::render`: the output dimensions, the
scene's "bottom layer changed" flag, whether the scene has a background, and
how many bottom-layer entities the scene holds. -/
structure FrameInput where
  size : ℕ × ℕ
  bottom_layer_changed : Bool
  background_present : Bool
  bottom_entity_count : ℕ
deriving DecidableEq, Repr

/-- Observable per-frame effects of `GlowRenderer::render` on the bottom
layer: whether `resize_fbo` reallocated both render targets, whether the full
bottom layer was re-rendered and resolved into the cache texture, how many
bottom-layer entities went through `render_entity`, and whether the resolved
cache texture was drawn during composition (`blit_fbo`). -/
structure FrameOutput where
  targets_reallocated : Bool
  bottom_rendered : Bool
  bottom_entity_draws : ℕ
  cache_texture_drawn : Bool
deriving DecidableEq, Repr

/-- The bottom-layer control flow of `GlowRenderer::render` from `render.rs`:
resize the FBOs (marking the cache dirty) when the dimensions changed, then
re-render and resolve the bottom layer when the scene flag or the dirty flag
is set, clearing the dirty flag; every frame composites the resolved cache
texture under the top layer. -/
def render_frame (s : FrameState) (i : FrameInput) : FrameState × FrameOutput :=
  let resized := s.fbo_size ≠ i.size
  let s1 := if s.fbo_size ≠ i.size
    then { fbo_size := i.size, bottom_layer_dirty := true }
    else s
  if i.bottom_layer_changed || s1.bottom_layer_dirty then
    ({ s1 with bottom_layer_dirty := false },
     { targets_reallocated := resized, bottom_rendered := true,
       bottom_entity_draws := i.bottom_entity_count, cache_texture_drawn := true })
  else
    (s1,
     { targets_reallocated := resized, bottom_rendered := false,
       bottom_entity_draws := 0, cache_texture_drawn := true })

/-- An RGBA color (`[f32; 4]` in the crate). -/
structure Color where
  r : ℚ
  g : ℚ
  b : ℚ
  a : ℚ
deriving DecidableEq, Repr

/-- `FillShader` from livesplit-core as consumed by `render.rs`: solid color,
vertical gradient (top, bottom), or horizontal gradient (left, right). -/
inductive FillShader where
  | solid_color (color : Color)
  | vertical_gradient (top bottom : Color)
  | horizontal_gradient (left right : Color)
deriving DecidableEq, Repr

/-- A livesplit-core `Transform` as used by the renderer.  The crate only
ever builds transforms with the external operations `pre_translate` /
`pre_scale` on transforms handed in by the scene, so the operations are kept
as free constructors over an opaque base transform. -/
inductive Tf where
  | base (scale_x scale_y x y : ℚ)
  | pre_translate (t : Tf) (x y : ℚ)
  | pre_scale (t : Tf) (x y : ℚ)
deriving DecidableEq, Repr

/-- `SHADOW_OFFSET` from `render.rs` (0.05, livesplit-core's constant). -/
def SHADOW_OFFSET : ℚ := 1 / 20

/-- `BLUR_FACTOR` from `render.rs` (0.05, livesplit-core's constant). -/
def BLUR_FACTOR : ℚ := 1 / 20

/-- One recorded GL draw: either a filled-path draw (`draw_path`: the path
program with the given fill shader and transform, streaming the given
buffers) or a textured-quad draw (`upload_and_draw` of the scene rectangle
under the image program, as in `draw_image` / `draw_background_image` /
`blit_fbo`). -/
inductive DrawCall where
  | path (vertices : Shared (List Vtx)) (indices : Shared (List ℕ))
      (shader : FillShader) (transform : Tf) (resolution : ℚ × ℚ)
  | quad (vertices : Shared (List Vtx)) (indices : Shared (List ℕ))
      (texture : ℕ) (transform : Tf) (resolution : ℚ × ℚ)
      (brightness opacity : ℚ) (flip_uv_y : Bool)
deriving DecidableEq, Repr

/-- `GlowRenderer::draw_path`: one filled-path draw call with the path's
shared buffers, the fill shader, and the transform. -/
def draw_path (p : GlPath) (shader : FillShader) (transform : Tf)
    (resolution : ℚ × ℚ) : DrawCall :=
  .path p.vertices p.indices shader transform resolution

/-- One shaped glyph of a label, as produced by livesplit-core's default text
engine: an optional tessellated outline, a local offset and scale, and an
optional per-glyph override color. -/
structure Glyph where
  path : Option GlPath
  x : ℚ
  y : ℚ
  scale : ℚ
  color : Option Color
deriving DecidableEq, Repr

/-- The label alpha resolved in `draw_label`: the fill alpha for a solid
shader, `0.5 * (a1 + a2)` for either gradient. -/
def label_alpha : FillShader → ℚ
  | .solid_color c => c.a
  | .vertical_gradient c1 c2 => 1 / 2 * (c1.a + c2.a)
  | .horizontal_gradient c1 c2 => 1 / 2 * (c1.a + c2.a)

/-- One pass of the glyph loops in `draw_label`: draw each glyph whose shape
is present with the transform and shader chosen by `mk`, skipping absent
shapes, in glyph order. -/
def glyph_pass (mk : Glyph → GlPath → DrawCall) : List Glyph → List DrawCall
  | [] => []
  | g :: rest =>
      match g.path with
      | some p => mk g p :: glyph_pass mk rest
      | none => glyph_pass mk rest

/-- `GlowRenderer::draw_label` from `render.rs`: if a shadow color is
configured, first a pass over all glyphs at the shadow-offset transform in
the alpha-modulated shadow color, then a pass over all glyphs at their true
transforms in their override color or the label's fill shader. -/
def draw_label (glyphs : List Glyph) (shader : FillShader)
    (text_shadow : Option Color) (transform : Tf) (resolution : ℚ × ℚ) :
    List DrawCall :=
  (match text_shadow with
   | some shadow_color =>
       let alpha := label_alpha shader
       let shadow_rgba : Color :=
         ⟨shadow_color.r, shadow_color.g, shadow_color.b, shadow_color.a * alpha⟩
       let shadow_transform := transform.pre_translate SHADOW_OFFSET SHADOW_OFFSET
       glyph_pass
         (fun g p =>
           draw_path p (.solid_color shadow_rgba)
             ((shadow_transform.pre_translate g.x g.y).pre_scale g.scale g.scale)
             resolution)
         glyphs
   | none => []) ++
  glyph_pass
    (fun g p =>
      draw_path p
        (match g.color with
         | some c => .solid_color c
         | none => shader)
        ((transform.pre_translate g.x g.y).pre_scale g.scale g.scale)
        resolution)
    glyphs

/-- A scene entity as dispatched by `render_entity` in `render.rs`.  Image
entities carry their shared backing data; label entities carry the shaped
glyph list behind the label handle. -/
inductive Entity where
  | fill_path (path : Option GlPath) (shader : FillShader) (transform : Tf)
  | stroke_path (path : Option GlPath) (stroke_width : ℚ) (color : Color)
      (transform : Tf)
  | image (img : GlImageData) (transform : Tf)
  | label (glyphs : List Glyph) (shader : FillShader)
      (text_shadow : Option Color) (transform : Tf)
deriving DecidableEq, Repr

/-- Result of `render_entity`: the draw calls issued, the entity with its
in-place caches updated (stroke cache, texture handle), and the advanced
allocation counters. -/
structure RenderEntityResult where
  draws : List DrawCall
  entity : Entity
  nextId : ℕ
  nextTex : ℕ
deriving DecidableEq, Repr

/-- `GlowRenderer::render_entity` from `render.rs`: dispatch on the entity
kind.  `FillPath` with a present path draws it; `StrokePath` with a present
path obtains stroked geometry via `tessellate_stroke` and, when present,
draws it as a filled path in the stroke's solid color, else draws nothing;
`Image` ensures the texture and draws the scene's unit rectangle as a
textured quad (brightness 1, opacity 1, no flip); `Label` delegates to
`draw_label`. -/
def render_entity (tess : StrokeTess) (rect : Option GlPath)
    (resolution : ℚ × ℚ) (nextId nextTex : ℕ) (e : Entity) :
    RenderEntityResult :=
  match e with
  | .fill_path none _ _ => ⟨[], e, nextId, nextTex⟩
  | .fill_path (some p) shader transform =>
      ⟨[draw_path p shader transform resolution], e, nextId, nextTex⟩
  | .stroke_path none _ _ _ => ⟨[], e, nextId, nextTex⟩
  | .stroke_path (some p) stroke_width color transform =>
      let r := tessellate_stroke tess p stroke_width nextId
      match r.result with
      | some stroked =>
          ⟨[draw_path stroked (.solid_color color) transform resolution],
           .stroke_path (some r.path) stroke_width color transform, r.nextId, nextTex⟩
      | none =>
          ⟨[], .stroke_path (some r.path) stroke_width color transform, r.nextId,
           nextTex⟩
  | .image img transform =>
      let r := ensure_texture img nextTex
      let draws := match rect with
        | some rp => [DrawCall.quad rp.vertices rp.indices r.texture transform
            resolution 1 1 false]
        | none => []
      ⟨draws, .image r.image transform, nextId, r.nextTex⟩
  | .label glyphs shader text_shadow transform =>
      ⟨draw_label glyphs shader text_shadow transform resolution, e, nextId, nextTex⟩

/-- `glow::VERTEX_SHADER`. -/
def VERTEX_SHADER : ℕ := 35633

/-- `glow::FRAGMENT_SHADER`. -/
def FRAGMENT_SHADER : ℕ := 35632

/-- Token standing for the path vertex shader GLSL text (`PATH_VERTEX_SRC` in
`shaders.rs`).  The spec treats shader sources as fixed opaque programs, so
only their identity matters here. -/
def PATH_VERTEX_SRC : String := "PATH_VERTEX_SRC"

/-- Token standing for `PATH_FRAGMENT_SRC` in `shaders.rs`. -/
def PATH_FRAGMENT_SRC : String := "PATH_FRAGMENT_SRC"

/-- Token standing for `IMAGE_VERTEX_SRC` in `shaders.rs`. -/
def IMAGE_VERTEX_SRC : String := "IMAGE_VERTEX_SRC"

/-- Token standing for `IMAGE_FRAGMENT_SRC` in `shaders.rs`. -/
def IMAGE_FRAGMENT_SRC : String := "IMAGE_FRAGMENT_SRC"

/-- The behavior of the GL context during initialization, uninterpreted:
object creation may fail with an error string (glow's fallible `create_*`
calls), shader compilation and program linking succeed or fail with an info
log, and uniform lookup may come up empty. -/
structure GlCtx where
  create_program : Except String ℕ
  create_shader : ℕ → Except String ℕ
  compile_status : ℕ → String → Bool
  shader_info_log : ℕ → String → String
  link_status : String → String → Bool
  program_info_log : String → String → String
  create_vertex_array : Except String ℕ
  create_buffer : Except String ℕ
  create_framebuffer : Except String ℕ
  create_texture : Except String ℕ
  create_renderbuffer : Except String ℕ
  uniform_location : ℕ → String → Option ℕ

/-- `compile_shader` from `shaders.rs`: create the shader object, compile the
source, and return the shader or a `"Shader compile error: "`-prefixed
message built from the info log. -/
def compile_shader (gl : GlCtx) (shader_type : ℕ) (source : String) :
    Except String ℕ :=
  match gl.create_shader shader_type with
  | .error e => .error e
  | .ok shader =>
      if gl.compile_status shader_type source then .ok shader
      else .error ("Shader compile error: " ++ gl.shader_info_log shader_type source)

/-- `compile_program` from `shaders.rs`: create the program, compile the
vertex then the fragment shader, link, and return the program or a
`"Program link error: "`-prefixed message on link failure. -/
def compile_program (gl : GlCtx) (vertex_src fragment_src : String) :
    Except String ℕ :=
  match gl.create_program with
  | .error e => .error e
  | .ok program =>
      match compile_shader gl VERTEX_SHADER vertex_src with
      | .error e => .error e
      | .ok _ =>
          match compile_shader gl FRAGMENT_SHADER fragment_src with
          | .error e => .error e
          | .ok _ =>
              if gl.link_status vertex_src fragment_src then .ok program
              else .error
                ("Program link error: " ++ gl.program_info_log vertex_src fragment_src)

/-- The uniform names looked up on the path program in `GlowRenderer::new`. -/
def path_uniform_names : List String :=
  ["u_scale", "u_offset", "u_resolution", "u_shader_type", "u_color_a",
   "u_color_b", "u_bounds"]

/-- The uniform names looked up on the image program in `GlowRenderer::new`. -/
def image_uniform_names : List String :=
  ["u_scale", "u_offset", "u_resolution", "u_texture", "u_flip_uv_y",
   "u_brightness", "u_opacity"]

/-- A fully constructed renderer handle: the fields of `GlowRenderer` that
the rest of this development observes, as set by `GlowRenderer::new`. -/
structure RendererInit where
  path_program : ℕ
  image_program : ℕ
  frame : FrameState
  blur : BlurState
deriving DecidableEq, Repr

/-- Outcome of `GlowRenderer::new`: a renderer, an error string (the `Err`
branch of the `Result`), or a panic (the `expect` calls on missing uniform
locations, which `render.rs` documents as indicating a shader-source bug). -/
inductive InitResult where
  | ok (r : RendererInit)
  | err (msg : String)
  | panic (msg : String)
deriving DecidableEq, Repr

/-- `GlowRenderer::new` from `render.rs`: compile the path program, then the
image program (any failure is returned as the error string); look up every
uniform location, panicking if one is missing; create the buffer objects and
framebuffers (failures propagate as error strings); and only then assemble
the renderer, with an uninitialized FBO size, the bottom layer marked dirty,
and an empty blur cache. -/
def renderer_new (gl : GlCtx) : InitResult :=
  match compile_program gl PATH_VERTEX_SRC PATH_FRAGMENT_SRC with
  | .error e => .err e
  | .ok path_program =>
      match compile_program gl IMAGE_VERTEX_SRC IMAGE_FRAGMENT_SRC with
      | .error e => .err e
      | .ok image_program =>
          match path_uniform_names.find?
              (fun n => (gl.uniform_location path_program n).isNone) with
          | some n => .panic (n ++ " missing from path shader")
          | none =>
          match image_uniform_names.find?
              (fun n => (gl.uniform_location image_program n).isNone) with
          | some n => .panic (n ++ " missing from image shader")
          | none =>
            match gl.create_vertex_array, gl.create_buffer with
            | .error e, _ => .err e
            | _, .error e => .err e
            | .ok _, .ok _ =>
                match gl.create_framebuffer, gl.create_texture,
                    gl.create_renderbuffer with
                | .error e, _, _ => .err e
                | _, .error e, _ => .err e
                | _, _, .error e => .err e
                | .ok _, .ok _, .ok _ =>
                    .ok ⟨path_program, image_program, initial_frame_state,
                      initial_blur_state⟩

/-- The label's resolved alpha in the words of the spec: the fill alpha when
the label's fill style is solid, the mean of the two endpoint alphas when it
is a gradient. -/
def resolved_alpha_spec : FillShader → ℚ
  | .solid_color c => c.a
  | .vertical_gradient top bottom => (top.a + bottom.a) / 2
  | .horizontal_gradient left right => (left.a + right.a) / 2

/-- `draw_label` as described by the spec, for a label with a configured
shadow color: first every present glyph shape translated by the fixed shadow
offset in a solid color whose RGB is the shadow color's and whose alpha is
the shadow color's alpha times the label's resolved alpha; then every present
glyph shape at its true position and scale in its override color if present,
else the label's fill style; absent glyph shapes are skipped in both passes.
This definition follows the spec's words; the theorem for the corresponding
claim compares it against `draw_label`, which is translated from the code. -/
def draw_label_spec (glyphs : List Glyph) (shader : FillShader)
    (shadow_color : Color) (transform : Tf) (resolution : ℚ × ℚ) :
    List DrawCall :=
  (glyphs.filterMap fun g => g.path.map fun p =>
    DrawCall.path p.vertices p.indices
      (.solid_color ⟨shadow_color.r, shadow_color.g, shadow_color.b,
        shadow_color.a * resolved_alpha_spec shader⟩)
      (((transform.pre_translate SHADOW_OFFSET SHADOW_OFFSET).pre_translate
          g.x g.y).pre_scale g.scale g.scale)
      resolution) ++
  (glyphs.filterMap fun g => g.path.map fun p =>
    DrawCall.path p.vertices p.indices
      (match g.color with
       | some c => .solid_color c
       | none => shader)
      ((transform.pre_translate g.x g.y).pre_scale g.scale g.scale)
      resolution)

/-- Whether any of the six compile/link checks performed during
`GlowRenderer::new` reports failure. -/
def compile_or_link_failed (gl : GlCtx) : Bool :=
  !(gl.compile_status VERTEX_SHADER PATH_VERTEX_SRC
    && gl.compile_status FRAGMENT_SHADER PATH_FRAGMENT_SRC
    && gl.link_status PATH_VERTEX_SRC PATH_FRAGMENT_SRC
    && gl.compile_status VERTEX_SHADER IMAGE_VERTEX_SRC
    && gl.compile_status FRAGMENT_SHADER IMAGE_FRAGMENT_SRC
    && gl.link_status IMAGE_VERTEX_SRC IMAGE_FRAGMENT_SRC)

/-- A concrete tessellation oracle that always produces a triangle. -/
def tess_tri : StrokeTess := fun _ _ => some ([(0, 0), (1, 0), (0, 1)], [0, 1, 2])

/-- A concrete tessellation oracle that always reports absent geometry. -/
def tess_absent : StrokeTess := fun _ _ => none

/-- A concrete path with buffer allocations 0 and 1, outline allocation 2,
and an empty stroke cache. -/
def path0 : GlPath := ⟨⟨0, [(0, 0), (1, 0), (0, 1)]⟩, ⟨1, [0, 1, 2]⟩, ⟨2, 0⟩, none⟩

/-- The stroked path produced by `tessellate_stroke tess_tri path0 1 3`. -/
def stroked0 : GlPath :=
  GlPath.from_arcs ⟨3, [(0, 0), (1, 0), (0, 1)]⟩ ⟨4, [0, 1, 2]⟩ ⟨2, 0⟩

/-- The stroked path produced by a follow-up
`tessellate_stroke tess_tri _ 2 5` on `path0`'s updated form. -/
def stroked1 : GlPath :=
  GlPath.from_arcs ⟨5, [(0, 0), (1, 0), (0, 1)]⟩ ⟨6, [0, 1, 2]⟩ ⟨2, 0⟩

/-- A concrete 1×1 image with no uploaded texture. -/
def image0 : GlImageData := ⟨[0, 0, 0, 255], 1, 1, none⟩

/-- A GL context on which every initialization step succeeds. -/
def gl_ok : GlCtx where
  create_program := .ok 1
  create_shader := fun _ => .ok 2
  compile_status := fun _ _ => true
  shader_info_log := fun _ _ => ""
  link_status := fun _ _ => true
  program_info_log := fun _ _ => ""
  create_vertex_array := .ok 3
  create_buffer := .ok 4
  create_framebuffer := .ok 5
  create_texture := .ok 6
  create_renderbuffer := .ok 7
  uniform_location := fun _ _ => some 0

/-- A GL context on which every shader compilation fails. -/
def gl_bad : GlCtx :=
  { gl_ok with
    compile_status := fun _ _ => false
    shader_info_log := fun _ _ => "bad source" }

/-! ## Helper lemmas -/

theorem fmin_fin (x y : ℚ) : F32x.fmin (.fin x) (.fin y) = .fin (min x y) := by
  simp only [F32x.fmin, F32x.flt, min_def]
  by_cases h : x < y
  · simp [h, le_of_lt h]
  · by_cases h2 : x ≤ y
    · have hxy : x = y := le_antisymm h2 (not_lt.mp h)
      simp [h, h2, hxy]
    · simp [h, h2]

theorem fmax_fin (x y : ℚ) : F32x.fmax (.fin x) (.fin y) = .fin (max x y) := by
  simp only [F32x.fmax, F32x.flt, max_def]
  by_cases h : y < x
  · simp [h, not_le.mpr h]
  · simp [h, not_lt.mp h]

theorem foldl_boundsStep_fin (a : Fin 2) (vs : List Vtx) (m M : ℚ) :
    vs.foldl (fun acc v => boundsStep acc v a) (F32x.fin m, F32x.fin M)
      = (F32x.fin (vs.foldl (fun x v => min x (v.coord a)) m),
         F32x.fin (vs.foldl (fun x v => max x (v.coord a)) M)) := by
  induction vs generalizing m M with
  | nil => rfl
  | cons v rest ih =>
      simp only [List.foldl_cons, boundsStep, fmin_fin, fmax_fin]
      exact ih _ _

theorem foldl_min_le_init (m : ℚ) (l : List ℚ) : l.foldl min m ≤ m := by
  induction l generalizing m with
  | nil => exact le_refl m
  | cons c t ih => exact le_trans (ih (min m c)) (min_le_left m c)

theorem foldl_min_le_mem (m q : ℚ) (l : List ℚ) (h : q ∈ l) :
    l.foldl min m ≤ q := by
  induction l generalizing m with
  | nil => cases h
  | cons c t ih =>
      rcases List.mem_cons.mp h with rfl | hq
      · exact le_trans (foldl_min_le_init (min m q) t) (min_le_right m q)
      · exact ih (min m c) hq

theorem foldl_min_mem (m : ℚ) (l : List ℚ) :
    l.foldl min m = m ∨ l.foldl min m ∈ l := by
  induction l generalizing m with
  | nil => exact Or.inl rfl
  | cons c t ih =>
      rcases ih (min m c) with h | h
      · rcases min_choice m c with hm | hm
        · exact Or.inl (by rw [List.foldl_cons, h, hm])
        · exact Or.inr (by rw [List.foldl_cons, h, hm]; exact List.mem_cons_self c t)
      · exact Or.inr (List.mem_cons_of_mem c h)

theorem init_le_foldl_max (m : ℚ) (l : List ℚ) : m ≤ l.foldl max m := by
  induction l generalizing m with
  | nil => exact le_refl m
  | cons c t ih => exact le_trans (le_max_left m c) (ih (max m c))

theorem mem_le_foldl_max (m q : ℚ) (l : List ℚ) (h : q ∈ l) :
    q ≤ l.foldl max m := by
  induction l generalizing m with
  | nil => cases h
  | cons c t ih =>
      rcases List.mem_cons.mp h with rfl | hq
      · exact le_trans (le_max_right m q) (init_le_foldl_max (max m q) t)
      · exact ih (max m c) hq

theorem foldl_max_mem (m : ℚ) (l : List ℚ) :
    l.foldl max m = m ∨ l.foldl max m ∈ l := by
  induction l generalizing m with
  | nil => exact Or.inl rfl
  | cons c t ih =>
      rcases ih (max m c) with h | h
      · rcases max_choice m c with hm | hm
        · exact Or.inl (by rw [List.foldl_cons, h, hm])
        · exact Or.inr (by rw [List.foldl_cons, h, hm]; exact List.mem_cons_self c t)
      · exact Or.inr (List.mem_cons_of_mem c h)

theorem cached_stroke_set_same (p : GlPath) (w : ℚ) (v : Shared (List Vtx))
    (i : Shared (List ℕ)) :
    (p.set_stroke_cache w v i).cached_stroke w = some (v, i) := by
  simp only [GlPath.cached_stroke, GlPath.set_stroke_cache, Option.bind_some,
    sub_self, abs_zero]
  norm_num [EPSILON]

theorem render_frame_post_dirty (s : FrameState) (i : FrameInput) :
    (render_frame s i).1.bottom_layer_dirty = false := by
  unfold render_frame
  by_cases h : s.fbo_size ≠ i.size <;> simp only [h, if_true, if_false] <;>
    split <;> simp_all

theorem render_frame_post_size (s : FrameState) (i : FrameInput) :
    (render_frame s i).1.fbo_size = i.size := by
  unfold render_frame
  by_cases h : s.fbo_size ≠ i.size <;> simp only [h, if_true, if_false] <;>
    split <;> simp_all

theorem render_frame_rendered_eq (s : FrameState) (i : FrameInput) :
    (render_frame s i).2.bottom_rendered
      = (i.bottom_layer_changed || decide (s.fbo_size ≠ i.size)
          || s.bottom_layer_dirty) := by
  unfold render_frame
  by_cases h : s.fbo_size ≠ i.size <;> simp only [h, if_true, if_false] <;>
    split <;> simp_all

theorem render_frame_reallocated_eq (s : FrameState) (i : FrameInput) :
    (render_frame s i).2.targets_reallocated = decide (s.fbo_size ≠ i.size) := by
  unfold render_frame
  by_cases h : s.fbo_size ≠ i.size <;> simp only [h, if_true, if_false] <;>
    split <;> simp_all

theorem render_frame_draws_eq (s : FrameState) (i : FrameInput) :
    (render_frame s i).2.bottom_entity_draws
      = (if (render_frame s i).2.bottom_rendered then i.bottom_entity_count
         else 0) := by
  unfold render_frame
  by_cases h : s.fbo_size ≠ i.size <;> simp only [h, if_true, if_false] <;>
    split <;> simp_all

theorem render_frame_cache_drawn (s : FrameState) (i : FrameInput) :
    (render_frame s i).2.cache_texture_drawn = true := by
  unfold render_frame
  by_cases h : s.fbo_size ≠ i.size <;> simp only [h, if_true, if_false] <;>
    split <;> simp_all

/-! ## Claim theorems -/

/-- C1: On the first frame the bottom layer is always re-rendered.  On any
later frame (here: the second of two consecutive frames started from an
arbitrary renderer state) the bottom layer is re-rendered if and only if the
scene's "bottom layer changed" flag is set or the output dimensions differ
from the previous frame's; the render targets are reallocated exactly when
the dimensions differ; when the bottom layer is not re-rendered, zero
bottom-layer entities are drawn; and the resolved-cache texture is drawn
during composition every frame. -/
theorem c1_bottom_layer_rerender_iff (s : FrameState) (i i1 i2 : FrameInput) :
    ((render_frame initial_frame_state i).2.bottom_rendered = true)
    ∧ ((render_frame (render_frame s i1).1 i2).2.bottom_rendered
        = (i2.bottom_layer_changed || decide (i2.size ≠ i1.size)))
    ∧ ((render_frame (render_frame s i1).1 i2).2.targets_reallocated
        = decide (i2.size ≠ i1.size))
    ∧ ((render_frame (render_frame s i1).1 i2).2.bottom_entity_draws
        = (if i2.bottom_layer_changed || decide (i2.size ≠ i1.size)
           then i2.bottom_entity_count else 0))
    ∧ ((render_frame (render_frame s i1).1 i2).2.cache_texture_drawn = true) := by
  have hd := render_frame_post_dirty s i1
  have hs := render_frame_post_size s i1
  have hr := render_frame_rendered_eq (render_frame s i1).1 i2
  rw [hd, hs] at hr
  simp only [Bool.or_false] at hr
  have hne : decide (i1.size ≠ i2.size) = decide (i2.size ≠ i1.size) := by
    simp [ne_comm]
  rw [hne] at hr
  refine ⟨?_, hr, ?_, ?_, render_frame_cache_drawn _ i2⟩
  · rw [render_frame_rendered_eq]
    simp [initial_frame_state]
  · rw [render_frame_reallocated_eq, hs]
    exact hne
  · rw [render_frame_draws_eq, hr]

/-- C2: The blur cache is never populated.  `get_or_create_blurred_texture`
takes `&self` and — as its own comment concedes — cannot write
`self.blur_cache`, and nothing else ever writes it, contradicting the field's
documentation ("reused across frames when the source image and blur setting
are unchanged").  Starting from a fresh renderer, two consecutive requests
with the same image identity and the same blur amount both take the
CPU-recompute-and-upload path and return distinct textures, and in general a
request never modifies the cache field. -/
theorem c2_blur_cache_never_populated :
    ((get_or_create_blurred_texture initial_blur_state 7 1).recomputed = true)
    ∧ ((get_or_create_blurred_texture
        (get_or_create_blurred_texture initial_blur_state 7 1).state 7
        1).recomputed = true)
    ∧ ((get_or_create_blurred_texture initial_blur_state 7 1).texture
        ≠ (get_or_create_blurred_texture
            (get_or_create_blurred_texture initial_blur_state 7 1).state 7
            1).texture)
    ∧ ((get_or_create_blurred_texture
        (get_or_create_blurred_texture initial_blur_state 7 1).state 7
        1).state.blur_cache = none)
    ∧ (∀ (st : BlurState) (ptr : ℕ) (b : ℚ),
        (get_or_create_blurred_texture st ptr b).state.blur_cache
          = st.blur_cache) := by
  refine ⟨rfl, rfl, by decide, rfl, ?_⟩
  intro st ptr b
  rcases st with ⟨cache, ntex⟩
  cases cache with
  | none => rfl
  | some c =>
      by_cases h : c.source_ptr = ptr ∧ |c.blur_value - b| < EPSILON <;>
        simp [get_or_create_blurred_texture, h]

/-- C5: `ensure_texture` on a fresh image uploads the pixel data and
populates the handle; the immediately following call returns the same handle
with no upload and no state change; and once the handle is populated any
later call returns it unchanged with no upload (the handle is never
invalidated or re-uploaded). -/
theorem c5_ensure_texture_uploads_once (d : GlImageData) (n : ℕ)
    (hfresh : d.texture = none) :
    ((ensure_texture d n).uploaded = true)
    ∧ ((ensure_texture d n).image.texture = some (ensure_texture d n).texture)
    ∧ (ensure_texture (ensure_texture d n).image (ensure_texture d n).nextTex
        = ⟨(ensure_texture d n).texture, (ensure_texture d n).image,
           (ensure_texture d n).nextTex, false⟩)
    ∧ (∀ (d2 : GlImageData) (m t : ℕ), d2.texture = some t →
        ensure_texture d2 m = ⟨t, d2, m, false⟩) := by
  refine ⟨?_, ?_, ?_, ?_⟩
  · simp [ensure_texture, hfresh]
  · simp [ensure_texture, hfresh]
  · simp [ensure_texture, hfresh]
  · intro d2 m t ht
    simp [ensure_texture, ht]

/-- Witness for C5 at a concrete fresh image. -/
theorem c5_ensure_texture_uploads_once_witness :
    ((ensure_texture image0 0).uploaded = true)
    ∧ ((ensure_texture image0 0).image.texture = some (ensure_texture image0 0).texture)
    ∧ (ensure_texture (ensure_texture image0 0).image (ensure_texture image0 0).nextTex
        = ⟨(ensure_texture image0 0).texture, (ensure_texture image0 0).image,
           (ensure_texture image0 0).nextTex, false⟩)
    ∧ (∀ (d2 : GlImageData) (m t : ℕ), d2.texture = some t →
        ensure_texture d2 m = ⟨t, d2, m, false⟩) :=
  c5_ensure_texture_uploads_once image0 0 rfl

/-- C10: Sharing (cloning) a path yields a copy whose stroke cache is empty
regardless of the original's cache state, while the vertex buffer, index
buffer, and retained outline are the very same allocations (equal `Arc`
identities); consequently every stroke-cache lookup through the new copy
misses. -/
theorem c10_share_resets_stroke_cache (p : GlPath) :
    ((p.share).stroke_cache = none)
    ∧ ((p.share).vertices = p.vertices)
    ∧ ((p.share).indices = p.indices)
    ∧ ((p.share).lyon_path = p.lyon_path)
    ∧ ((p.share).vertices.id = p.vertices.id)
    ∧ ((p.share).indices.id = p.indices.id)
    ∧ ((p.share).lyon_path.id = p.lyon_path.id)
    ∧ (∀ w : ℚ, (p.share).cached_stroke w = none) :=
  ⟨rfl, rfl, rfl, rfl, rfl, rfl, rfl, fun _ => rfl⟩

/-- C6: `vertex_bounds` returns, for local Y values {1, 3, 2}, the vertical
range [1, 3]; for an empty vertex set, [0, 0]; for a single vertex at Y = 7,
[7, 7]; and in general, on any nonempty vertex set it returns the minimum and
maximum of the selected axis's values. -/
theorem c6_vertex_bounds_minmax :
    (vertex_bounds [((0 : ℚ), (1 : ℚ)), (1, 3), (2, 2)] 1
      = (F32x.fin 1, F32x.fin 3))
    ∧ (∀ a : Fin 2, vertex_bounds [] a = (F32x.fin 0, F32x.fin 0))
    ∧ (vertex_bounds [((3 : ℚ), (7 : ℚ))] 1 = (F32x.fin 7, F32x.fin 7))
    ∧ (∀ (v : Vtx) (vs : List Vtx) (a : Fin 2), ∃ m M : ℚ,
        vertex_bounds (v :: vs) a = (F32x.fin m, F32x.fin M)
        ∧ m ∈ (v :: vs).map (fun u => u.coord a)
        ∧ M ∈ (v :: vs).map (fun u => u.coord a)
        ∧ ∀ q ∈ (v :: vs).map (fun u => u.coord a), m ≤ q ∧ q ≤ M) := by
  refine ⟨by decide, by decide, by decide, ?_⟩
  intro v vs a
  have key : (v :: vs).foldl (fun acc u => boundsStep acc u a)
        (F32x.posInf, F32x.negInf)
      = (F32x.fin ((vs.map (fun u => u.coord a)).foldl min (v.coord a)),
         F32x.fin ((vs.map (fun u => u.coord a)).foldl max (v.coord a))) := by
    rw [List.foldl_cons]
    have hstep : boundsStep (F32x.posInf, F32x.negInf) v a
        = (F32x.fin (v.coord a), F32x.fin (v.coord a)) := rfl
    rw [hstep, foldl_boundsStep_fin, List.foldl_map, List.foldl_map]
  have hmle : (vs.map (fun u => u.coord a)).foldl min (v.coord a) ≤ v.coord a :=
    foldl_min_le_init _ _
  have hMge : v.coord a ≤ (vs.map (fun u => u.coord a)).foldl max (v.coord a) :=
    init_le_foldl_max _ _
  have hmM := le_trans hmle hMge
  refine ⟨(vs.map (fun u => u.coord a)).foldl min (v.coord a),
          (vs.map (fun u => u.coord a)).foldl max (v.coord a), ?_, ?_, ?_, ?_⟩
  · simp only [vertex_bounds, key, F32x.flt]
    simp [not_lt.mpr hmM]
  · rw [List.map_cons]
    rcases foldl_min_mem (v.coord a) (vs.map (fun u => u.coord a)) with h | h
    · exact List.mem_cons.mpr (Or.inl h)
    · exact List.mem_cons.mpr (Or.inr h)
  · rw [List.map_cons]
    rcases foldl_max_mem (v.coord a) (vs.map (fun u => u.coord a)) with h | h
    · exact List.mem_cons.mpr (Or.inl h)
    · exact List.mem_cons.mpr (Or.inr h)
  · intro q hq
    rw [List.map_cons] at hq
    rcases List.mem_cons.mp hq with rfl | hq2
    · exact ⟨hmle, hMge⟩
    · exact ⟨foldl_min_le_mem _ _ _ hq2, mem_le_foldl_max _ _ _ hq2⟩

/-- Witness for C6's general conjunct at a concrete vertex list. -/
theorem c6_vertex_bounds_minmax_witness :
    ∃ m M : ℚ,
      vertex_bounds [((0 : ℚ), (1 : ℚ)), (1, 3)] 1 = (F32x.fin m, F32x.fin M)
      ∧ m ∈ [((0 : ℚ), (1 : ℚ)), (1, 3)].map (fun u => Vtx.coord u 1)
      ∧ M ∈ [((0 : ℚ), (1 : ℚ)), (1, 3)].map (fun u => Vtx.coord u 1)
      ∧ ∀ q ∈ [((0 : ℚ), (1 : ℚ)), (1, 3)].map (fun u => Vtx.coord u 1),
          m ≤ q ∧ q ≤ M :=
  c6_vertex_bounds_minmax.2.2.2 ((0 : ℚ), (1 : ℚ)) [(1, 3)] 1

/-- C3: If a stroke request at width `w` returns geometry, then the
immediately following stroke request at the same `w` returns the very same
result — the identical shared vertex and index buffers (bit-identical, same
allocations) — without invoking the stroke tessellator again and without
changing the path's cache state or allocating. -/
theorem c3_stroke_cache_second_hit (tess : StrokeTess) (p : GlPath) (w : ℚ)
    (n : ℕ) (r : GlPath)
    (h : (tessellate_stroke tess p w n).result = some r) :
    tessellate_stroke tess (tessellate_stroke tess p w n).path w
        (tessellate_stroke tess p w n).nextId
      = ⟨some r, (tessellate_stroke tess p w n).path,
         (tessellate_stroke tess p w n).nextId, false⟩ := by
  rcases hc : p.cached_stroke w with - | ⟨v, i⟩
  · simp only [tessellate_stroke, hc] at h ⊢
    rcases ht : tess p.lyon_path.data w with - | ⟨vs, is⟩
    · simp [ht] at h
    · simp only [ht] at h ⊢
      by_cases he : vs.isEmpty
      · simp [he] at h
      · simp only [he, if_false, Bool.false_eq_true] at h ⊢
        have hr : GlPath.from_arcs ⟨n, vs⟩ ⟨n + 1, is⟩ p.lyon_path = r := by
          exact Option.some.inj h
        have hhit := cached_stroke_set_same p w
          (⟨n, vs⟩ : Shared (List Vtx)) (⟨n + 1, is⟩ : Shared (List ℕ))
        simp only [tessellate_stroke, hhit, ← hr]
        rfl
  · simp only [tessellate_stroke, hc] at h ⊢
    have hr : GlPath.from_arcs v i p.lyon_path = r := Option.some.inj h
    simp only [← hr]

/-- Witness for C3 at a concrete path, tessellator, and width. -/
theorem c3_stroke_cache_second_hit_witness :
    tessellate_stroke tess_tri (tessellate_stroke tess_tri path0 1 3).path 1
        (tessellate_stroke tess_tri path0 1 3).nextId
      = ⟨some stroked0, (tessellate_stroke tess_tri path0 1 3).path,
         (tessellate_stroke tess_tri path0 1 3).nextId, false⟩ :=
  c3_stroke_cache_second_hit tess_tri path0 1 3 stroked0 (by decide)

theorem tessellate_stroke_invoked_of_miss (tess : StrokeTess) (p : GlPath)
    (w : ℚ) (m : ℕ) (h : p.cached_stroke w = none) :
    (tessellate_stroke tess p w m).invoked = true := by
  simp only [tessellate_stroke, h]
  rcases tess p.lyon_path.data w with - | ⟨vs, is⟩
  · rfl
  · by_cases he : vs.isEmpty <;> simp [he]

/-- C4: Starting from a path with an empty stroke cache, requesting a stroke
at `w1` and then at `w2` (with `|w1 − w2| > ε`, both requests yielding
geometry) leaves the single cache slot holding a `w2` entry: the `w1` entry
created by the first request is overwritten, a subsequent lookup at `w1`
returns nothing, and a subsequent stroke request at `w1` is a fresh miss
that re-invokes the tessellator.  The `Option`-typed slot retains at most one
(width, buffers) entry at any time by construction. -/
theorem c4_stroke_cache_overwrite (tess : StrokeTess) (p p1 q : GlPath)
    (w1 w2 : ℚ) (n : ℕ) (r1 r2 : GlPath)
    (hempty : p.stroke_cache = none)
    (hfar : EPSILON < |w1 - w2|)
    (h1 : (tessellate_stroke tess p w1 n).result = some r1)
    (hp1 : p1 = (tessellate_stroke tess p w1 n).path)
    (h2 : (tessellate_stroke tess p1 w2
        (tessellate_stroke tess p w1 n).nextId).result = some r2)
    (hq : q = (tessellate_stroke tess p1 w2
        (tessellate_stroke tess p w1 n).nextId).path) :
    (∃ e : StrokeCache, p1.stroke_cache = some e ∧ e.width = w1)
    ∧ (∃ e : StrokeCache, q.stroke_cache = some e ∧ e.width = w2)
    ∧ (q.cached_stroke w1 = none)
    ∧ (∀ m : ℕ, (tessellate_stroke tess q w1 m).invoked = true) := by
  have hc1 : p.cached_stroke w1 = none := by
    simp [GlPath.cached_stroke, hempty]
  simp only [tessellate_stroke, hc1] at h1 hp1 h2 hq
  rcases ht1 : tess p.lyon_path.data w1 with - | ⟨vs1, is1⟩
  · simp [ht1] at h1
  · simp only [ht1] at h1 hp1 h2 hq
    by_cases he1 : vs1.isEmpty
    · simp [he1] at h1
    · simp only [he1, if_false, Bool.false_eq_true] at h1 hp1 h2 hq
      subst hp1
      have hmiss : (p.set_stroke_cache w1 ⟨n, vs1⟩ ⟨n + 1, is1⟩).cached_stroke w2
          = none := by
        simp [GlPath.cached_stroke, GlPath.set_stroke_cache,
          not_lt.mpr hfar.le]
      simp only [tessellate_stroke, hmiss] at h2 hq
      rcases ht2 : tess (p.set_stroke_cache w1 ⟨n, vs1⟩
          ⟨n + 1, is1⟩).lyon_path.data w2 with - | ⟨vs2, is2⟩
      · simp [ht2] at h2
      · simp only [ht2] at h2 hq
        by_cases he2 : vs2.isEmpty
        · simp [he2] at h2
        · simp only [he2, if_false, Bool.false_eq_true] at h2 hq
          subst hq
          have hflip : ¬ (|w2 - w1| < EPSILON) := by
            rw [abs_sub_comm]
            exact not_lt.mpr hfar.le
          refine ⟨⟨⟨w1, ⟨n, vs1⟩, ⟨n + 1, is1⟩⟩, rfl, rfl⟩,
                  ⟨⟨w2, ⟨n + 2, vs2⟩, ⟨n + 3, is2⟩⟩, rfl, rfl⟩, ?_, ?_⟩
          · simp [GlPath.cached_stroke, GlPath.set_stroke_cache, hflip]
          · intro m
            apply tessellate_stroke_invoked_of_miss
            simp [GlPath.cached_stroke, GlPath.set_stroke_cache, hflip]

/-- Witness for C4 at a concrete path, tessellator, and widths 1 and 2. -/
theorem c4_stroke_cache_overwrite_witness :
    (∃ e : StrokeCache,
      (tessellate_stroke tess_tri path0 1 3).path.stroke_cache = some e
      ∧ e.width = 1)
    ∧ (∃ e : StrokeCache,
      (tessellate_stroke tess_tri (tessellate_stroke tess_tri path0 1 3).path 2
        (tessellate_stroke tess_tri path0 1 3).nextId).path.stroke_cache = some e
      ∧ e.width = 2)
    ∧ ((tessellate_stroke tess_tri (tessellate_stroke tess_tri path0 1 3).path 2
        (tessellate_stroke tess_tri path0 1 3).nextId).path.cached_stroke 1 = none)
    ∧ (∀ m : ℕ,
      (tessellate_stroke tess_tri
        (tessellate_stroke tess_tri (tessellate_stroke tess_tri path0 1 3).path 2
          (tessellate_stroke tess_tri path0 1 3).nextId).path 1 m).invoked = true) :=
  c4_stroke_cache_overwrite tess_tri path0
    (tessellate_stroke tess_tri path0 1 3).path
    (tessellate_stroke tess_tri (tessellate_stroke tess_tri path0 1 3).path 2
      (tessellate_stroke tess_tri path0 1 3).nextId).path
    1 2 3 stroked0 stroked1 rfl (by norm_num [EPSILON]) (by decide) rfl
    (by
      have hfirst : tessellate_stroke tess_tri path0 1 3
          = ⟨some stroked0,
             path0.set_stroke_cache 1 ⟨3, [(0, 0), (1, 0), (0, 1)]⟩ ⟨4, [0, 1, 2]⟩,
             5, true⟩ := by decide
      rw [hfirst]
      have hmiss : (path0.set_stroke_cache 1 ⟨3, [(0, 0), (1, 0), (0, 1)]⟩
          ⟨4, [0, 1, 2]⟩).cached_stroke 2 = none := by
        have habs : ¬ (|(1 : ℚ) - 2| < EPSILON) := by norm_num [EPSILON]
        simp [GlPath.cached_stroke, GlPath.set_stroke_cache, habs]
      simp only [tessellate_stroke, hmiss, tess_tri]
      rfl)
    rfl

/-- C7: Rendering a stroked-shape entity obtains geometry from the stroke
cache/tessellator for (shape, width); when geometry is present exactly one
draw is issued and it equals the draw of a filled shape whose geometry is the
stroked result and whose style is the stroke's solid color; when the path is
absent or the stroke tessellation is absent, nothing at all is drawn — in
particular the shape's own fill buffers are never drawn as a fallback. -/
theorem c7_stroke_entity_no_fallback (tess : StrokeTess) (rect : Option GlPath)
    (res : ℚ × ℚ) (n m : ℕ) (w : ℚ) (c : Color) (t : Tf) :
    ((render_entity tess rect res n m (.stroke_path none w c t)).draws = [])
    ∧ (∀ p : GlPath, (tessellate_stroke tess p w n).result = none →
        (render_entity tess rect res n m (.stroke_path (some p) w c t)).draws
          = [])
    ∧ (∀ (p g : GlPath), (tessellate_stroke tess p w n).result = some g →
        ((render_entity tess rect res n m (.stroke_path (some p) w c t)).draws
          = [draw_path g (.solid_color c) t res])
        ∧ ((render_entity tess rect res n m (.stroke_path (some p) w c t)).draws
          = (render_entity tess rect res n m
              (.fill_path (some g) (.solid_color c) t)).draws)) := by
  refine ⟨rfl, ?_, ?_⟩
  · intro p h
    simp only [render_entity, h]
  · intro p g h
    refine ⟨?_, ?_⟩ <;> simp only [render_entity, h]

/-- Witness for C7 at a concrete entity, for both the absent-geometry case
and the present-geometry case. -/
theorem c7_stroke_entity_no_fallback_witness :
    ((render_entity tess_absent none (1, 1) 0 0
        (.stroke_path (some path0) 1 ⟨1, 1, 1, 1⟩ (.base 1 1 0 0))).draws = [])
    ∧ ((render_entity tess_tri none (1, 1) 3 0
        (.stroke_path (some path0) 1 ⟨1, 1, 1, 1⟩ (.base 1 1 0 0))).draws
        = [draw_path stroked0 (.solid_color ⟨1, 1, 1, 1⟩) (.base 1 1 0 0) (1, 1)]) :=
  ⟨(c7_stroke_entity_no_fallback tess_absent none (1, 1) 0 0 1 ⟨1, 1, 1, 1⟩
      (.base 1 1 0 0)).2.1 path0 rfl,
   ((c7_stroke_entity_no_fallback tess_tri none (1, 1) 3 0 1 ⟨1, 1, 1, 1⟩
      (.base 1 1 0 0)).2.2 path0 stroked0 (by decide)).1⟩

theorem glyph_pass_eq_filterMap (mk : Glyph → GlPath → DrawCall)
    (glyphs : List Glyph) :
    glyph_pass mk glyphs = glyphs.filterMap (fun g => g.path.map (mk g)) := by
  induction glyphs with
  | nil => rfl
  | cons g rest ih =>
      cases hp : g.path with
      | none => simp [glyph_pass, hp, List.filterMap_cons, ih]
      | some p => simp [glyph_pass, hp, List.filterMap_cons, ih]

theorem label_alpha_eq_spec (shader : FillShader) :
    label_alpha shader = resolved_alpha_spec shader := by
  cases shader <;> simp [label_alpha, resolved_alpha_spec] <;> ring

/-- C8: For a label with a configured shadow color, `draw_label` produces
exactly the spec-described draw list: first a shadow pass over every present
glyph shape, translated by the fixed shadow offset and drawn in a solid color
whose RGB is the shadow color's and whose alpha is the shadow color's alpha
times the label's resolved alpha (fill alpha for a solid style, mean of the
endpoint alphas for a gradient); then the glyph pass, each present glyph at
its true position and scale in its override color if present, else the
label's fill style; glyphs with absent shapes are skipped in both passes. -/
theorem c8_label_shadow_matches_spec (glyphs : List Glyph)
    (shader : FillShader) (sc : Color) (transform : Tf) (res : ℚ × ℚ) :
    draw_label glyphs shader (some sc) transform res
      = draw_label_spec glyphs shader sc transform res := by
  simp only [draw_label, draw_label_spec, glyph_pass_eq_filterMap,
    label_alpha_eq_spec, draw_path]

theorem compile_program_cases (gl : GlCtx) (v f : String) (kp kv kf : ℕ)
    (hp : gl.create_program = Except.ok kp)
    (hv : gl.create_shader VERTEX_SHADER = Except.ok kv)
    (hf : gl.create_shader FRAGMENT_SHADER = Except.ok kf) :
    compile_program gl v f
      = (if gl.compile_status VERTEX_SHADER v then
          if gl.compile_status FRAGMENT_SHADER f then
            if gl.link_status v f then Except.ok kp
            else Except.error ("Program link error: " ++ gl.program_info_log v f)
          else Except.error
            ("Shader compile error: " ++ gl.shader_info_log FRAGMENT_SHADER f)
        else Except.error
          ("Shader compile error: " ++ gl.shader_info_log VERTEX_SHADER v)) := by
  simp only [compile_program, compile_shader, hp, hv, hf]
  by_cases h1 : gl.compile_status VERTEX_SHADER v <;>
    by_cases h2 : gl.compile_status FRAGMENT_SHADER f <;>
      simp [h1, h2]

/-- C9: If any shader compilation or program linking step fails during
initialization, `GlowRenderer::new` returns a descriptive error string (a
compile or link error message) rather than a renderer — no partial renderer
is constructed; if every step succeeds, it returns a renderer handle whose
bottom layer starts dirty and whose blur cache starts empty. -/
theorem c9_init_error_or_renderer (gl : GlCtx)
    (hp : ∃ k, gl.create_program = Except.ok k)
    (hs : ∀ ty, ∃ k, gl.create_shader ty = Except.ok k) :
    (compile_or_link_failed gl = true →
      ∃ msg, renderer_new gl = .err msg
        ∧ ((∃ log, msg = "Shader compile error: " ++ log)
            ∨ (∃ log, msg = "Program link error: " ++ log)))
    ∧ (compile_or_link_failed gl = false →
        (∀ prog name, ∃ loc, gl.uniform_location prog name = some loc) →
        (∃ k, gl.create_vertex_array = Except.ok k) →
        (∃ k, gl.create_buffer = Except.ok k) →
        (∃ k, gl.create_framebuffer = Except.ok k) →
        (∃ k, gl.create_texture = Except.ok k) →
        (∃ k, gl.create_renderbuffer = Except.ok k) →
        ∃ r, renderer_new gl = .ok r
          ∧ r.frame = initial_frame_state ∧ r.blur = initial_blur_state) := by
  obtain ⟨kp, hkp⟩ := hp
  obtain ⟨kv, hkv⟩ := hs VERTEX_SHADER
  obtain ⟨kf, hkf⟩ := hs FRAGMENT_SHADER
  have hcp1 := compile_program_cases gl PATH_VERTEX_SRC PATH_FRAGMENT_SRC
    kp kv kf hkp hkv hkf
  have hcp2 := compile_program_cases gl IMAGE_VERTEX_SRC IMAGE_FRAGMENT_SRC
    kp kv kf hkp hkv hkf
  constructor
  · intro hfail
    rw [renderer_new, hcp1, hcp2]
    by_cases b1 : gl.compile_status VERTEX_SHADER PATH_VERTEX_SRC
    case neg =>
      exact ⟨_, by simp [b1],
        Or.inl ⟨gl.shader_info_log VERTEX_SHADER PATH_VERTEX_SRC, rfl⟩⟩
    by_cases b2 : gl.compile_status FRAGMENT_SHADER PATH_FRAGMENT_SRC
    case neg =>
      exact ⟨_, by simp [b1, b2],
        Or.inl ⟨gl.shader_info_log FRAGMENT_SHADER PATH_FRAGMENT_SRC, rfl⟩⟩
    by_cases b3 : gl.link_status PATH_VERTEX_SRC PATH_FRAGMENT_SRC
    case neg =>
      exact ⟨_, by simp [b1, b2, b3],
        Or.inr ⟨gl.program_info_log PATH_VERTEX_SRC PATH_FRAGMENT_SRC, rfl⟩⟩
    by_cases b4 : gl.compile_status VERTEX_SHADER IMAGE_VERTEX_SRC
    case neg =>
      exact ⟨_, by simp [b1, b2, b3, b4],
        Or.inl ⟨gl.shader_info_log VERTEX_SHADER IMAGE_VERTEX_SRC, rfl⟩⟩
    by_cases b5 : gl.compile_status FRAGMENT_SHADER IMAGE_FRAGMENT_SRC
    case neg =>
      exact ⟨_, by simp [b1, b2, b3, b4, b5],
        Or.inl ⟨gl.shader_info_log FRAGMENT_SHADER IMAGE_FRAGMENT_SRC, rfl⟩⟩
    by_cases b6 : gl.link_status IMAGE_VERTEX_SRC IMAGE_FRAGMENT_SRC
    case neg =>
      exact ⟨_, by simp [b1, b2, b3, b4, b5, b6],
        Or.inr ⟨gl.program_info_log IMAGE_VERTEX_SRC IMAGE_FRAGMENT_SRC, rfl⟩⟩
    exfalso
    simp [compile_or_link_failed, b1, b2, b3, b4, b5, b6] at hfail
  · intro hok hu hva hb hfb ht hrb
    obtain ⟨kva, hkva⟩ := hva
    obtain ⟨kb, hkb⟩ := hb
    obtain ⟨kfb, hkfb⟩ := hfb
    obtain ⟨kt, hkt⟩ := ht
    obtain ⟨krb, hkrb⟩ := hrb
    have hall : (gl.compile_status VERTEX_SHADER PATH_VERTEX_SRC
        && gl.compile_status FRAGMENT_SHADER PATH_FRAGMENT_SRC
        && gl.link_status PATH_VERTEX_SRC PATH_FRAGMENT_SRC
        && gl.compile_status VERTEX_SHADER IMAGE_VERTEX_SRC
        && gl.compile_status FRAGMENT_SHADER IMAGE_FRAGMENT_SRC
        && gl.link_status IMAGE_VERTEX_SRC IMAGE_FRAGMENT_SRC) = true := by
      rcases hb : (gl.compile_status VERTEX_SHADER PATH_VERTEX_SRC
        && gl.compile_status FRAGMENT_SHADER PATH_FRAGMENT_SRC
        && gl.link_status PATH_VERTEX_SRC PATH_FRAGMENT_SRC
        && gl.compile_status VERTEX_SHADER IMAGE_VERTEX_SRC
        && gl.compile_status FRAGMENT_SHADER IMAGE_FRAGMENT_SRC
        && gl.link_status IMAGE_VERTEX_SRC IMAGE_FRAGMENT_SRC) with - | -
      · rw [compile_or_link_failed, hb] at hok
        exact absurd hok (by simp)
      · rfl
    simp only [Bool.and_eq_true] at hall
    obtain ⟨⟨⟨⟨⟨h1, h2⟩, h3⟩, h4⟩, h5⟩, h6⟩ := hall
    have hfind1 : path_uniform_names.find?
        (fun nm => (gl.uniform_location kp nm).isNone) = none := by
      apply List.find?_eq_none.mpr
      intro x hx
      obtain ⟨loc, hloc⟩ := hu kp x
      simp [hloc]
    have hfind2 : image_uniform_names.find?
        (fun nm => (gl.uniform_location kp nm).isNone) = none := by
      apply List.find?_eq_none.mpr
      intro x hx
      obtain ⟨loc, hloc⟩ := hu kp x
      simp [hloc]
    rw [renderer_new, hcp1, hcp2]
    simp only [h1, h2, h3, h4, h5, h6, if_true, hfind1, hfind2, hkva, hkb,
      hkfb, hkt, hkrb]
    exact ⟨_, rfl, rfl, rfl⟩

/-- Witness for C9: a context whose shader compilation fails yields an error
string, and a fully working context yields a renderer. -/
theorem c9_init_error_or_renderer_witness :
    (∃ msg, renderer_new gl_bad = .err msg
      ∧ ((∃ log, msg = "Shader compile error: " ++ log)
          ∨ (∃ log, msg = "Program link error: " ++ log)))
    ∧ (∃ r, renderer_new gl_ok = .ok r
      ∧ r.frame = initial_frame_state ∧ r.blur = initial_blur_state) :=
  ⟨(c9_init_error_or_renderer gl_bad ⟨1, rfl⟩ (fun _ => ⟨2, rfl⟩)).1 rfl,
   (c9_init_error_or_renderer gl_ok ⟨1, rfl⟩ (fun _ => ⟨2, rfl⟩)).2 rfl
     (fun _ _ => ⟨0, rfl⟩) ⟨3, rfl⟩ ⟨4, rfl⟩ ⟨5, rfl⟩ ⟨6, rfl⟩ ⟨7, rfl⟩⟩
